import Mathlib

/-
Shallow embedding of the filmyfim-backend recommendation service
(src/main.py) and proofs about the claims of its specification.

Modelling conventions:
  - Python dicts holding movie metadata become association lists
    (`Dict := List (String × Val)`), so key presence is a provable fact.
  - Every outbound call (language model, catalog search, catalog detail,
    catalog discovery) is an oracle in an `Env` record returning
    `Except Err _`; a Python exception raised by a call is the `error`
    case, and a function that lets exceptions escape returns `Except`.
  - The randomized page number sent to the discovery endpoint only shapes
    the request; the response is what matters, so it is absorbed into the
    `discover` oracle.  `random.choice` and `random.randint` results are
    supplied by the environment (`choose`, `chooseSet`, `loopGenre`).
  - The unbounded `while` loop of the /recommend endpoint is embedded with
    explicit fuel; running out of fuel while the loop condition still
    holds is the value `Except.ok none`.
  - Machine floats (vote_average) are modelled as rationals; Python
    rounds floats half-to-even while `round1` here rounds half-up, a
    divergence no claim depends on.
  - Python regex classes are modelled over the character sets the code
    meets: a digit is an ASCII digit, a word character is ASCII
    alphanumeric or underscore, whitespace is the ASCII whitespace set.
-/

namespace Filmyfim

/-! ## Python string primitives -/

/-- The Python whitespace class (the relevant ASCII part). -/
def isPySpace (c : Char) : Bool :=
  c = ' ' || c = '\t' || c = '\n' || c = '\r' || c = '\x0b' || c = '\x0c'

/-- Drop leading whitespace from a character list. -/
def stripLeading (cs : List Char) : List Char := cs.dropWhile isPySpace

/-- The character-list form of the Python method str.strip. -/
def pyStripList (cs : List Char) : List Char :=
  ((cs.dropWhile isPySpace).reverse.dropWhile isPySpace).reverse

/-- The Python method str.strip. -/
def pyStrip (s : String) : String := String.mk (pyStripList s.data)

/-- A Python word character (the re class \w, ASCII part). -/
def isWordChar (c : Char) : Bool := c.isAlphanum || c = '_'

/-! ## Title Normalizer (the parsing loop of get_movie_recommendations,
main.py lines 242-253) -/

/-- The substitution re.sub applied with pattern
digits-then-one-of-dot-paren-dash then whitespace, anchored at the start:
strip a leading enumeration marker.  Maximal-digit matching agrees with
the regex because the delimiter class holds no digit. -/
def stripEnum (cs : List Char) : List Char :=
  let ds := cs.takeWhile Char.isDigit
  let rest := cs.dropWhile Char.isDigit
  if ds.isEmpty then cs
  else
    match rest with
    | [] => cs
    | c :: rest2 => if c = '.' || c = ')' || c = '-' then stripLeading rest2 else cs

/-- The substitution stripping one leading bullet marker (dash, bullet dot
or asterisk) and the whitespace after it. -/
def stripBullet : List Char → List Char
  | [] => []
  | c :: cs => if c = '-' || c = '•' || c = '*' then stripLeading cs else c :: cs

/-- The global substitution removing every parenthetical: from each opening
parenthesis that has a closing one somewhere after it, drop through the
first such closing parenthesis.  The flag records being inside a match. -/
def removeParens : List Char → Bool → List Char
  | [], _ => []
  | c :: cs, true => if c = ')' then removeParens cs false else removeParens cs true
  | c :: cs, false =>
    if c = '(' && cs.contains ')' then removeParens cs true
    else c :: removeParens cs false

/-- The Python method str.split with separator a newline: every newline
separates, empty pieces kept. -/
def splitLines : List Char → List (List Char)
  | [] => [[]]
  | c :: cs =>
    if c = '\n' then [] :: splitLines cs
    else
      match splitLines cs with
      | [] => [[c]]
      | l :: ls => (c :: l) :: ls

/-- Whether the first list starts with the second (str.startswith). -/
def startsWithList : List Char → List Char → Bool
  | _, [] => true
  | [], _ :: _ => false
  | c :: cs, p :: ps => c = p && startsWithList cs ps

/-- One pass of the cleanup applied to each line of the model response. -/
def cleanLineL (cs : List Char) : List Char :=
  pyStripList (removeParens (stripBullet (stripEnum (pyStripList cs))) false)

/-- The filter keeping a cleaned line: nonempty and not starting
(case-insensitively) with a filler word. -/
def keepLineL (cs : List Char) : Bool :=
  !cs.isEmpty &&
    !(startsWithList (cs.map Char.toLower) "similar".data ||
      startsWithList (cs.map Char.toLower) "recommended".data)

/-- The Title Normalizer: the candidate titles extracted from the raw model
response (split on newlines, clean each line, keep the survivors, cap at 6). -/
def movie_titles (content : String) : List String :=
  ((((splitLines (pyStripList content.data)).map cleanLineL).filter keepLineL).take 6).map
    String.mk

/-! ## Data model: JSON-ish values, movie records as dicts, failures -/

/-- A Python exception escaping an outbound call or raised by the code. -/
inductive Err where
  | httpErr
  | parseErr
  | stopIter
deriving DecidableEq, Repr

/-- A value stored in a movie-record dict. -/
inductive Val where
  | vstr : String → Val
  | vnum : ℚ → Val
  | vnull : Val
deriving DecidableEq, Repr

/-- A Python dict with string keys, as an association list. -/
abbrev Dict := List (String × Val)

/-- Decidable equality of call outcomes, so concrete runs can be settled
by decide. -/
instance instDecEqExcept {α β : Type} [DecidableEq α] [DecidableEq β] :
    DecidableEq (Except α β)
  | Except.ok a, Except.ok b =>
    match decEq a b with
    | isTrue h => isTrue (h ▸ rfl)
    | isFalse h => isFalse (fun hh => h (Except.ok.inj hh))
  | Except.ok _, Except.error _ => isFalse (fun hh => Except.noConfusion hh)
  | Except.error _, Except.ok _ => isFalse (fun hh => Except.noConfusion hh)
  | Except.error a, Except.error b =>
    match decEq a b with
    | isTrue h => isTrue (h ▸ rfl)
    | isFalse h => isFalse (fun hh => h (Except.error.inj hh))

/-- Lookup of a key in a dict. -/
def Dict.get (d : Dict) (k : String) : Option Val :=
  (d.find? (fun p => p.1 = k)).map Prod.snd

/-- The keys of a dict, in insertion order. -/
def Dict.keys (d : Dict) : List String := d.map Prod.fst

/-- The name field of a movie record, as the code reads it with
subscript access (every record the code builds carries the key). -/
def nameOf (d : Dict) : String :=
  match Dict.get d "name" with
  | some (Val.vstr s) => s
  | _ => ""

/-- One movie object of a catalog (TMDB) response, with the fields the
code reads. -/
structure SearchMovie where
  id : Nat
  title : String
  overview : String
  vote_average : ℚ
  poster_path : Option String
deriving DecidableEq, Repr

/-- The outside world, one oracle per outbound call.  Oracles are
deterministic functions of the request data; random draws made by the
code are supplied as the fields choose, chooseSet and loopGenre. -/
structure Env where
  /-- model.invoke on a prompt: the raw completion text, or a raised error. -/
  invoke : String → Except Err String
  /-- TMDB search/movie by query string: the parsed results list. -/
  search : String → Except Err (List SearchMovie)
  /-- TMDB movie detail by id: the imdb_id field, absent when missing. -/
  detail : Nat → Except Err (Option String)
  /-- TMDB discover/movie by genre id (the random page draw is absorbed
  into this oracle): the parsed results list. -/
  discover : Nat → Except Err (List SearchMovie)
  /-- random.choice among the available movies, per genre id (reduced
  modulo the number of candidates). -/
  choose : Nat → Nat
  /-- random.choice among the diverse genre sets (reduced modulo 5). -/
  chooseSet : Nat
  /-- random.choice among the genre ids, per backfill iteration (reduced
  modulo 16). -/
  loopGenre : Nat → Nat

/-! ## Static genre configuration (main.py lines 60-91) -/

/-- The genre catalog mapping genre names to TMDB genre ids. -/
def GENRES : List (String × Nat) :=
  [("Action", 28), ("Adventure", 12), ("Animation", 16), ("Comedy", 35),
   ("Crime", 80), ("Documentary", 99), ("Drama", 18), ("Family", 10751),
   ("Fantasy", 14), ("Horror", 27), ("Musical", 10402), ("Mystery", 9648),
   ("Romance", 10749), ("Science Fiction", 878), ("Thriller", 53), ("War", 10752)]

/-- GENRES subscripted by name.  Python raises KeyError on a missing
name; every call site passes a present name, so the default 0 (an id
carried by no genre) is unreachable there. -/
def genreIdOfName (name : String) : Nat :=
  ((GENRES.find? (fun p => p.1 = name)).map Prod.snd).getD 0

/-- The generator expression resolving a genre id back to the first genre
name carrying it; none models the StopIteration raised when no name does. -/
def genreNameOfId (gid : Nat) : Option String :=
  (GENRES.find? (fun p => p.2 = gid)).map Prod.fst

/-- list(GENRES.values()). -/
def genreIds : List Nat := GENRES.map Prod.snd

/-- The five hand-curated diverse genre-name triples. -/
def DIVERSE_GENRE_SETS : List (List String) :=
  [["Action", "Drama", "Animation"],
   ["Comedy", "Horror", "Science Fiction"],
   ["Romance", "Thriller", "Fantasy"],
   ["Mystery", "Family", "War"],
   ["Adventure", "Crime", "Musical"]]

/-! ## Translator (translate_to_persian, main.py lines 93-108) -/

/-- The instruction text of the translation prompt (the f-string up to the
interpolated source text). -/
def translationInstructions : String :=
  "به عنوان یک مترجم حرفه‌ای فیلم، این متن را به فارسی روان و ساده ترجمه کن.\n        - از اصطلاحات رایج فارسی استفاده کن\n        - جملات باید طبیعی و روان باشند\n        - از کلمات ساده و قابل فهم استفاده کن\n        - نام فیلم‌ها را به انگلیسی نگه دار\n        \n        متن اصلی: "

/-- The prompt sent to the model for a translation. -/
def translationPrompt (text : String) : String := translationInstructions ++ text

/-- The Translator: the stripped completion on success, the input text
unchanged when the model call raises (the except branch logs and returns
the original text). -/
def translate_to_persian (text : String) (env : Env) : String :=
  match env.invoke (translationPrompt text) with
  | Except.ok r => pyStrip r
  | Except.error _ => text

/-! ## Metadata Resolver (get_movie_details, main.py lines 110-166) -/

/-- The search query: the title with non-word non-space characters
removed, then stripped. -/
def cleanedTitle (title : String) : String :=
  pyStrip (String.mk (title.data.filter (fun c => isWordChar c || isPySpace c)))

/-- The record returned when the search yields no results. -/
def noResultRecord (title : String) (env : Env) : Dict :=
  [("name", Val.vstr title),
   ("score", Val.vnum 0),
   ("description", Val.vstr (translate_to_persian "No information available" env)),
   ("description_en", Val.vstr "No information available"),
   ("image", Val.vnull),
   ("imdb_id", Val.vnull)]

/-- The record returned when any step of the resolution raises. -/
def errorRecord (title : String) (env : Env) : Dict :=
  [("name", Val.vstr title),
   ("score", Val.vnum 0),
   ("description", Val.vstr (translate_to_persian "Error fetching movie details" env)),
   ("description_en", Val.vstr "Error fetching movie details"),
   ("image", Val.vnull),
   ("imdb_id", Val.vnull)]

/-- Rounding a rating to one decimal place (round(x, 1)): the floor of
q * 10 + 1 / 2, computed on numerator and denominator so the kernel can
evaluate it, then divided by 10.  The half-way tie direction differs from
Python floats (which round half to even) and no claim depends on it. -/
def round1 (q : ℚ) : ℚ :=
  Rat.divInt ((20 * q.num + (q.den : ℤ)).ediv (2 * (q.den : ℤ))) 10

/-- The image field: the poster URL when the poster path is truthy, null
when it is missing or the empty string. -/
def imageVal : Option String → Val
  | some p => if p.isEmpty then Val.vnull else Val.vstr ("https://image.tmdb.org/t/p/w500" ++ p)
  | none => Val.vnull

/-- An optional string as a dict value (details_data.get may yield None). -/
def optStrVal : Option String → Val
  | some s => Val.vstr s
  | none => Val.vnull

/-- The Metadata Resolver.  The try block spans the search call, the
detail call and the record construction; either call raising lands in the
except branch, which builds the error placeholder.  An empty results list
(or a falsy results field) builds the no-result placeholder.  The function
itself always returns a record. -/
def get_movie_details (title : String) (env : Env) : Dict :=
  match env.search (cleanedTitle title) with
  | Except.error _ => errorRecord title env
  | Except.ok [] => noResultRecord title env
  | Except.ok (movie :: _) =>
    match env.detail movie.id with
    | Except.error _ => errorRecord title env
    | Except.ok imdbId =>
      let description_en := if movie.overview.isEmpty then "No description available"
                            else movie.overview
      let description_fa := translate_to_persian description_en env
      [("name", Val.vstr movie.title),
       ("score", Val.vnum (round1 movie.vote_average)),
       ("description", Val.vstr description_fa),
       ("description_en", Val.vstr description_en),
       ("image", imageVal movie.poster_path),
       ("imdb_id", optStrVal imdbId)]

/-! ## Genre Picker (get_top_movie_by_genre, main.py lines 168-203) -/

/-- random.choice from a nonempty candidate list, driven by the choose
field of the environment. -/
def chooseFrom (env : Env) (gid : Nat) (a : SearchMovie) (rest : List SearchMovie) : SearchMovie :=
  (a :: rest).getD (env.choose gid % (rest.length + 1)) a

/-- The record the Genre Picker builds for the chosen movie: the synopsis
is translated only when a model was passed, and the genre field is the
looked-up genre name. -/
def pickerRecord (movie : SearchMovie) (useModel : Bool) (gname : String) (env : Env) : Dict :=
  [("name", Val.vstr movie.title),
   ("score", Val.vnum (round1 movie.vote_average)),
   ("description", Val.vstr (if useModel then translate_to_persian movie.overview env
                             else movie.overview)),
   ("description_en", Val.vstr movie.overview),
   ("image", imageVal movie.poster_path),
   ("genre", Val.vstr gname)]

/-- The Genre Picker.  The function body has no try/except: the discovery
call raising propagates to the caller, as does the StopIteration of the
genre-name lookup.  A falsy results field or an emptied candidate list
returns None; the available candidates are the first ten results not in
the exclusion list (a falsy exclusion list excludes nothing). -/
def get_top_movie_by_genre (genre_id : Nat) (exclude_movies : List String) (useModel : Bool)
    (env : Env) : Except Err (Option Dict) :=
  match env.discover genre_id with
  | Except.error e => Except.error e
  | Except.ok [] => Except.ok none
  | Except.ok (r :: rs) =>
    match ((r :: rs).take 10).filter
        (fun m => decide (exclude_movies = [] ∨ m.title ∉ exclude_movies)) with
    | [] => Except.ok none
    | a :: arest =>
      match genreNameOfId genre_id with
      | none => Except.error Err.stopIter
      | some gname =>
        Except.ok (some (pickerRecord (chooseFrom env genre_id a arest) useModel gname env))

/-! ## Diversity Selector (get_featured_movies, main.py lines 205-230) -/

/-- The genre set drawn for one featured-movies request. -/
def chosenGenreSet (env : Env) : List String :=
  DIVERSE_GENRE_SETS.getD (env.chooseSet % DIVERSE_GENRE_SETS.length) []

/-- The task-creation loop: one picker task per genre of the set, each
handed list(used_movies) as it stands at creation time.  The loop never
mutates used_movies, so the state is threaded through unchanged; each
pair keeps the exclusion list the task was created with. -/
def dispatchTasks (env : Env) (used : List String) :
    List String → List (List String × Except Err (Option Dict))
  | [] => []
  | g :: gs =>
    (used, get_top_movie_by_genre (genreIdOfName g) used true env) :: dispatchTasks env used gs

/-- The collection loop after asyncio.gather(..., return_exceptions=True):
keep a result only when it is a dict (an exception or None is skipped)
whose name is not yet used. -/
def collectFeatured : List (Except Err (Option Dict)) → List Dict → List String → List Dict
  | [], movies, _ => movies
  | r :: rs, movies, used =>
    match r with
    | Except.ok (some d) =>
      if nameOf d ∈ used then collectFeatured rs movies used
      else collectFeatured rs (movies ++ [d]) (used ++ [nameOf d])
    | _ => collectFeatured rs movies used

/-- GET /featured-movies: draw a genre set, create the three picker tasks,
gather them tolerating exceptions, keep dict results with fresh names,
return the first three. -/
def get_featured_movies (env : Env) : List Dict :=
  let genre_set := chosenGenreSet env
  let results := (dispatchTasks env [] genre_set).map Prod.snd
  (collectFeatured results [] []).take 3

/-! ## Recommendation Orchestrator (get_movie_recommendations,
main.py lines 236-276) -/

/-- The source prompt built for the seed title (prompts/movies.py). -/
def create_recommendation_prompt (movie_title : String) : String :=
  "As an expert film critic and recommendation specialist, suggest exactly 6 movies similar to '"
    ++ movie_title ++
    "'.\n\n    Consider these critical aspects in your analysis:\n\n    1. Emotional Resonance & Atmosphere:\n       - Similar emotional impact and mood\n       - Matching atmospheric elements\n       - Comparable pacing and tone\n       - Visual and stylistic similarities\n\n    2. Narrative Elements:\n       - Related story structures and plot devices\n       - Similar character dynamics and development\n       - Matching thematic depth and complexity\n       - Comparable plot twists and revelations\n\n    3. Viewer Experience:\n       - Similar emotional journeys for the audience\n       - Matching intellectual engagement level\n       - Comparable memorable moments\n       - Related cinematic techniques\n\n    4. Audience Behavior Patterns:\n       - Movies frequently enjoyed by fans of '"
    ++ movie_title ++
    "'\n       - Films with high viewer overlap\n       - Similar cult following or audience reception\n       - Matching viewer satisfaction patterns\n\n    5. Technical and Artistic Merit:\n       - Similar directorial style\n       - Comparable cinematography and visual effects\n       - Matching production quality\n       - Related musical scoring and sound design\n\n    Provide exactly 6 movie titles that best match these criteria. Focus on creating a cohesive viewing experience similar to '"
    ++ movie_title ++
    "'.\n    \n    Return ONLY the movie titles, one per line, without any additional text, numbers, or explanations.\n    Ensure each recommendation truly captures the essence and appeal of the original film.\n    Do not include the original movie in the recommendations."

/-- The sequential resolution loop over the candidate titles: every
resolved record is appended when truthy (a dict is truthy when nonempty). -/
def initialDetails (titles : List String) (env : Env) : List Dict :=
  titles.foldl
    (fun acc title =>
      if (get_movie_details title env).isEmpty then acc
      else acc ++ [get_movie_details title env])
    []

/-- The exclusion list built from the records collected so far. -/
def excludeNames (ms : List Dict) : List String := ms.map nameOf

/-- The backfill while-loop, with explicit fuel counting iterations and k
numbering the iteration for the random genre draw.  Except.ok none means
the fuel ran out with the loop condition still true (the loop is still
spinning); a picker exception escapes the loop (and the endpoint catches
it at top level into a 500). -/
def backfill (seed : String) (env : Env) : Nat → Nat → List Dict → Except Err (Option (List Dict))
  | 0, _, ms => if ms.length < 6 then Except.ok none else Except.ok (some ms)
  | fuel + 1, k, ms =>
    if ms.length < 6 then
      if (get_movie_details seed env).isEmpty then backfill seed env fuel (k + 1) ms
      else
        match get_top_movie_by_genre (genreIds.getD (env.loopGenre k % genreIds.length) 28)
            (excludeNames ms) true env with
        | Except.error e => Except.error e
        | Except.ok (some m) => backfill seed env fuel (k + 1) (ms ++ [m])
        | Except.ok none => backfill seed env fuel (k + 1) ms
    else Except.ok (some ms)

/-- POST /recommend: invoke the model once on the recommendation prompt
(a raised error escapes to the top-level handler and becomes a 500),
normalize the response into candidate titles, resolve them sequentially,
then backfill to six records.  Except.ok none is the run that is still
inside the backfill loop after the given fuel. -/
def get_movie_recommendations (seed : String) (env : Env) (fuel : Nat) :
    Except Err (Option (List Dict)) :=
  match env.invoke (create_recommendation_prompt seed) with
  | Except.error e => Except.error e
  | Except.ok content => backfill seed env fuel 0 (initialDetails (movie_titles content) env)

/-! ## Derived predicates and concrete test environments -/

/-- Each record of the second list carries a name not among the names
seen before it (the seen set growing left to right). -/
def freshFrom : List String → List Dict → Prop
  | _, [] => True
  | seen, d :: ds => nameOf d ∉ seen ∧ freshFrom (seen ++ [nameOf d]) ds

/-- A catalog movie used by the concrete runs. -/
def movieA : SearchMovie :=
  { id := 101, title := "Alpha", overview := "An alpha film.",
    vote_average := 8, poster_path := none }

/-- An environment where every outbound call raises. -/
def envFail : Env where
  invoke := fun _ => Except.error Err.httpErr
  search := fun _ => Except.error Err.httpErr
  detail := fun _ => Except.error Err.httpErr
  discover := fun _ => Except.error Err.httpErr
  choose := fun _ => 0
  chooseSet := 0
  loopGenre := fun _ => 0

/-- An environment where the model answers an empty completion and the
catalog always answers an empty results list. -/
def envEmpty : Env where
  invoke := fun _ => Except.ok ""
  search := fun _ => Except.ok []
  detail := fun _ => Except.ok none
  discover := fun _ => Except.ok []
  choose := fun _ => 0
  chooseSet := 0
  loopGenre := fun _ => 0

/-- An environment where discovery always offers the single movie movieA,
the model call raises (so translation falls back to identity), and the
first diverse genre set is drawn. -/
def envPick : Env where
  invoke := fun _ => Except.error Err.httpErr
  search := fun _ => Except.ok []
  detail := fun _ => Except.ok none
  discover := fun _ => Except.ok [movieA]
  choose := fun _ => 0
  chooseSet := 0
  loopGenre := fun _ => 0

/-- The record the Genre Picker builds from movieA for a given genre
name, under envPick. -/
def alphaRecord (g : String) : Dict :=
  [("name", Val.vstr "Alpha"),
   ("score", Val.vnum 8),
   ("description", Val.vstr "An alpha film."),
   ("description_en", Val.vstr "An alpha film."),
   ("image", Val.vnull),
   ("genre", Val.vstr g)]

/-- An environment whose model completion repeats the title Foo, so two
candidate titles resolve to records with equal names. -/
def envDup : Env where
  invoke := fun _ => Except.ok "Foo\nFoo\nBar\nBaz\nQux\nQuux"
  search := fun _ => Except.ok []
  detail := fun _ => Except.ok none
  discover := fun _ => Except.ok []
  choose := fun _ => 0
  chooseSet := 0
  loopGenre := fun _ => 0

/-- The result list of the /recommend run under envDup. -/
def dupOut : List Dict :=
  initialDetails (movie_titles "Foo\nFoo\nBar\nBaz\nQux\nQuux") envDup

/-! ## Helper lemmas -/

/-- Every branch of the Metadata Resolver builds a record with the same
six keys, in order. -/
theorem resolver_keys (title : String) (env : Env) :
    Dict.keys (get_movie_details title env) =
      ["name", "score", "description", "description_en", "image", "imdb_id"] := by
  unfold get_movie_details
  split
  · rfl
  · rfl
  · split
    · rfl
    · rfl

/-- The Metadata Resolver never returns an empty (falsy) dict. -/
theorem resolver_isEmpty_false (title : String) (env : Env) :
    (get_movie_details title env).isEmpty = false := by
  unfold get_movie_details
  split
  · rfl
  · rfl
  · split
    · rfl
    · rfl

/-- getD lands on the default or on a member. -/
theorem getD_mem_or {α : Type} : ∀ (l : List α) (n : Nat) (d : α),
    l.getD n d = d ∨ l.getD n d ∈ l
  | [], _, _ => Or.inl rfl
  | a :: l, 0, d => Or.inr (by simp [List.getD])
  | a :: l, n + 1, d => by
    rcases getD_mem_or l n d with h | h
    · exact Or.inl (by simpa [List.getD] using h)
    · refine Or.inr ?_
      simp only [List.getD_cons_succ]
      exact List.mem_cons_of_mem a h

/-- The randomly chosen movie is one of the available candidates. -/
theorem chooseFrom_mem (env : Env) (gid : Nat) (a : SearchMovie) (rest : List SearchMovie) :
    chooseFrom env gid a rest ∈ a :: rest := by
  unfold chooseFrom
  rcases getD_mem_or (a :: rest) (env.choose gid % (rest.length + 1)) a with h | h
  · rw [h]; exact List.mem_cons_self a rest
  · exact h

/-- startsWithList agrees with the list-prefix relation. -/
theorem startsWithList_iff : ∀ (cs p : List Char), startsWithList cs p = true ↔ p <+: cs
  | cs, [] => by
    constructor
    · intro _; exact List.nil_prefix
    · intro _; cases cs <;> rfl
  | [], c :: cs => by
    constructor
    · intro h; exact absurd h (by simp [startsWithList])
    · intro h; exact absurd h (by simp)
  | c :: cs, p :: ps => by
    rw [List.cons_prefix_cons]
    constructor
    · intro h
      have h2 := h
      simp only [startsWithList, Bool.and_eq_true] at h2
      obtain ⟨h3, h4⟩ := h2
      exact ⟨(decide_eq_true_eq.mp h3).symm, (startsWithList_iff cs ps).mp h4⟩
    · rintro ⟨h1, h2⟩
      simp only [startsWithList, Bool.and_eq_true]
      exact ⟨decide_eq_true_eq.mpr h1.symm, (startsWithList_iff cs ps).mpr h2⟩

/-- A successful Genre Picker call yields a record with the picker keys,
a name outside the exclusion list, and the genre name resolved from the
requested genre id. -/
theorem picker_success (gid : Nat) (excl : List String) (um : Bool) (env : Env) (d : Dict)
    (h : get_top_movie_by_genre gid excl um env = Except.ok (some d)) :
    Dict.keys d = ["name", "score", "description", "description_en", "image", "genre"] ∧
    nameOf d ∉ excl ∧
    ∃ g, genreNameOfId gid = some g ∧ Dict.get d "genre" = some (Val.vstr g) := by
  unfold get_top_movie_by_genre at h
  split at h
  · exact absurd h (by simp)
  · exact absurd h (by simp)
  · rename_i r rs
    split at h
    · exact absurd h (by simp)
    · rename_i a arest hav
      split at h
      · exact absurd h (by simp)
      · rename_i gname hg
        have hd : pickerRecord (chooseFrom env gid a arest) um gname env = d :=
          Option.some.inj (Except.ok.inj h)
        subst hd
        refine ⟨rfl, ?_, gname, hg, rfl⟩
        have hmem : chooseFrom env gid a arest ∈ a :: arest := chooseFrom_mem env gid a arest
        rw [← hav] at hmem
        have hp := of_decide_eq_true (List.mem_filter.mp hmem).2
        rcases hp with h1 | h2
        · subst h1; simp [pickerRecord, nameOf, Dict.get]
        · exact h2

/-- The task-creation loop hands every task the exclusion state it was
entered with. -/
theorem dispatchTasks_fst (env : Env) (used : List String) :
    ∀ gs : List String, (dispatchTasks env used gs).map Prod.fst = gs.map (fun _ => used)
  | [] => rfl
  | g :: gs => by simp [dispatchTasks, dispatchTasks_fst env used gs]

/-- The gathered results are the picker outcomes per genre, in genre-set
order. -/
theorem dispatchTasks_snd (env : Env) (used : List String) :
    ∀ gs : List String, (dispatchTasks env used gs).map Prod.snd =
      gs.map (fun g => get_top_movie_by_genre (genreIdOfName g) used true env)
  | [] => rfl
  | g :: gs => by simp [dispatchTasks, dispatchTasks_snd env used gs]

/-- The collection loop only appends to its accumulator. -/
theorem collectFeatured_append :
    ∀ (rs : List (Except Err (Option Dict))) (movies : List Dict) (used : List String),
    collectFeatured rs movies used = movies ++ collectFeatured rs [] used
  | [], movies, used => by simp [collectFeatured]
  | r :: rs, movies, used => by
    cases r with
    | error e => simpa [collectFeatured] using collectFeatured_append rs movies used
    | ok o =>
      cases o with
      | none => simpa [collectFeatured] using collectFeatured_append rs movies used
      | some d =>
        by_cases hm : nameOf d ∈ used
        · simpa [collectFeatured, hm] using collectFeatured_append rs movies used
        · simp only [collectFeatured, if_neg hm, List.nil_append]
          rw [collectFeatured_append rs (movies ++ [d]), collectFeatured_append rs [d]]
          simp

/-- The collection loop preserves and extends name uniqueness: starting
from an accumulator with distinct names all recorded as used, the
collected records keep pairwise-distinct names. -/
theorem collectFeatured_nodup :
    ∀ (rs : List (Except Err (Option Dict))) (movies : List Dict) (used : List String),
    (movies.map nameOf).Nodup → (∀ n ∈ movies.map nameOf, n ∈ used) →
    ((collectFeatured rs movies used).map nameOf).Nodup
  | [], movies, used => fun h1 _ => by simpa [collectFeatured] using h1
  | r :: rs, movies, used => fun h1 h2 => by
    cases r with
    | error e =>
      simp only [collectFeatured]
      exact collectFeatured_nodup rs movies used h1 h2
    | ok o =>
      cases o with
      | none =>
        simp only [collectFeatured]
        exact collectFeatured_nodup rs movies used h1 h2
      | some d =>
        by_cases hm : nameOf d ∈ used
        · simp only [collectFeatured, if_pos hm]
          exact collectFeatured_nodup rs movies used h1 h2
        · simp only [collectFeatured, if_neg hm]
          refine collectFeatured_nodup rs (movies ++ [d]) (used ++ [nameOf d]) ?_ ?_
          · rw [List.map_append]
            rw [List.nodup_append]
            refine ⟨h1, List.nodup_singleton _, ?_⟩
            intro n hn hn2
            simp only [List.map_cons, List.map_nil, List.mem_singleton] at hn2
            subst hn2
            exact hm (h2 _ hn)
          · intro n hn
            rw [List.map_append] at hn
            rcases List.mem_append.mp hn with h | h
            · exact List.mem_append.mpr (Or.inl (h2 _ h))
            · simp only [List.map_cons, List.map_nil, List.mem_singleton] at h
              subst h
              exact List.mem_append.mpr (Or.inr (List.mem_singleton_self _))

/-- When every successful per-genre pick carries its own genre name, the
collected genre fields form a sublist of the genre set (so each collected
record is tagged with a genre of the set, in set order). -/
theorem collectFeatured_genre_sub (env : Env) :
    ∀ (gs : List String),
    (∀ g ∈ gs, ∀ d : Dict,
        get_top_movie_by_genre (genreIdOfName g) [] true env = Except.ok (some d) →
        Dict.get d "genre" = some (Val.vstr g)) →
    ∀ used : List String,
    ((collectFeatured
        (gs.map (fun g => get_top_movie_by_genre (genreIdOfName g) [] true env)) [] used).map
      (fun d => Dict.get d "genre")).Sublist (gs.map (fun g => some (Val.vstr g)))
  | [], _ => fun _ => by simp [collectFeatured]
  | g :: gs, hg => fun used => by
    have hgtail : ∀ g2 ∈ gs, ∀ d : Dict,
        get_top_movie_by_genre (genreIdOfName g2) [] true env = Except.ok (some d) →
        Dict.get d "genre" = some (Val.vstr g2) :=
      fun g2 hm => hg g2 (List.mem_cons_of_mem g hm)
    simp only [List.map_cons]
    cases hr : get_top_movie_by_genre (genreIdOfName g) [] true env with
    | error e =>
      simp only [collectFeatured]
      exact List.Sublist.cons _ (collectFeatured_genre_sub env gs hgtail used)
    | ok o =>
      cases o with
      | none =>
        simp only [collectFeatured]
        exact List.Sublist.cons _ (collectFeatured_genre_sub env gs hgtail used)
      | some d =>
        by_cases hm : nameOf d ∈ used
        · simp only [collectFeatured, if_pos hm]
          exact List.Sublist.cons _ (collectFeatured_genre_sub env gs hgtail used)
        · simp only [collectFeatured, if_neg hm]
          rw [collectFeatured_append]
          simp only [List.map_append, List.map_cons, List.map_nil, List.singleton_append]
          rw [hg g (List.mem_cons_self g gs) d hr]
          exact List.Sublist.cons₂ _ (collectFeatured_genre_sub env gs hgtail (used ++ [nameOf d]))

/-- Within every hand-curated diverse genre set, resolving a genre name
to its id and back yields the same name (the ids of GENRES are pairwise
distinct). -/
theorem diverse_sets_genre_roundtrip :
    ∀ gs ∈ DIVERSE_GENRE_SETS, ∀ g ∈ gs, genreNameOfId (genreIdOfName g) = some g := by decide

/-- The drawn genre set is one of the five diverse genre sets. -/
theorem chosenGenreSet_mem (env : Env) : chosenGenreSet env ∈ DIVERSE_GENRE_SETS := by
  unfold chosenGenreSet
  have h5 : env.chooseSet % DIVERSE_GENRE_SETS.length < DIVERSE_GENRE_SETS.length :=
    Nat.mod_lt _ (by decide)
  rw [List.getD_eq_getElem _ _ h5]
  exact List.getElem_mem h5

/-- What a completed backfill run guarantees: the input records are a
prefix of the output, every appended record carries a name not among the
names before it, completion from below six yields exactly six records,
and entry at six or more returns the input unchanged. -/
theorem backfill_ok (seed : String) (env : Env) :
    ∀ (fuel k : Nat) (ms out : List Dict),
      backfill seed env fuel k ms = Except.ok (some out) →
      (∃ rest, out = ms ++ rest ∧ freshFrom (excludeNames ms) rest) ∧
      (ms.length < 6 → out.length = 6) ∧
      (6 ≤ ms.length → out = ms) := by
  intro fuel
  induction fuel with
  | zero =>
    intro k ms out h
    unfold backfill at h
    by_cases hl : ms.length < 6
    · rw [if_pos hl] at h
      exact absurd h (by simp)
    · rw [if_neg hl] at h
      have hout : ms = out := Option.some.inj (Except.ok.inj h)
      subst hout
      exact ⟨⟨[], by simp, trivial⟩, fun hc => absurd hc hl, fun _ => rfl⟩
  | succ n ih =>
    intro k ms out h
    unfold backfill at h
    by_cases hl : ms.length < 6
    · rw [if_pos hl] at h
      rw [resolver_isEmpty_false seed env] at h
      simp only [Bool.false_eq_true, if_false] at h
      split at h
      · exact absurd h (by simp)
      · rename_i m hp
        obtain ⟨⟨rest, hrest, hfresh⟩, h6, hge⟩ := ih (k + 1) (ms ++ [m]) out h
        obtain ⟨-, hnex, -⟩ := picker_success _ _ _ _ _ hp
        refine ⟨⟨m :: rest, ?_, ?_, ?_⟩, ?_, ?_⟩
        · rw [hrest, List.append_assoc]; rfl
        · exact hnex
        · have hx : excludeNames (ms ++ [m]) = excludeNames ms ++ [nameOf m] := by
            simp [excludeNames]
          rw [← hx]
          exact hfresh
        · intro _
          by_cases h2 : (ms ++ [m]).length < 6
          · exact h6 h2
          · simp only [List.length_append, List.length_cons, List.length_nil] at h2
            have hout : out = ms ++ [m] := hge (by simp; omega)
            rw [hout]
            simp only [List.length_append, List.length_cons, List.length_nil]
            omega
        · intro hc; omega
      · rename_i hp
        obtain ⟨⟨rest, hrest, hfresh⟩, h6, -⟩ := ih (k + 1) ms out h
        exact ⟨⟨rest, hrest, hfresh⟩, h6, fun hc => absurd hl (by omega)⟩
    · rw [if_neg hl] at h
      have hout : ms = out := Option.some.inj (Except.ok.inj h)
      subst hout
      exact ⟨⟨[], by simp, trivial⟩, fun hc => absurd hc hl, fun _ => rfl⟩

/-- When every Genre Picker call answers None, any amount of fuel leaves
the backfill loop still running as long as fewer than six records are in
hand. -/
theorem backfill_null_spins (seed : String) (env : Env)
    (hnull : ∀ gid excl, get_top_movie_by_genre gid excl true env = Except.ok none) :
    ∀ (fuel k : Nat) (ms : List Dict), ms.length < 6 →
      backfill seed env fuel k ms = Except.ok none := by
  intro fuel
  induction fuel with
  | zero =>
    intro k ms hl
    unfold backfill
    rw [if_pos hl]
  | succ n ih =>
    intro k ms hl
    unfold backfill
    rw [if_pos hl]
    rw [resolver_isEmpty_false seed env]
    simp only [Bool.false_eq_true, if_false]
    rw [hnull]
    exact ih (k + 1) ms hl

/-- The resolution fold grows its accumulator by at most one record per
title. -/
theorem initialDetails_le (env : Env) :
    ∀ (titles : List String) (acc : List Dict),
      (titles.foldl
        (fun acc title =>
          if (get_movie_details title env).isEmpty then acc
          else acc ++ [get_movie_details title env]) acc).length ≤ acc.length + titles.length
  | [], acc => by simp
  | t :: ts, acc => by
    simp only [List.foldl_cons]
    by_cases he : (get_movie_details t env).isEmpty
    · rw [if_pos he]
      have h := initialDetails_le env ts acc
      simp only [List.length_cons]
      omega
    · rw [if_neg he]
      have h := initialDetails_le env ts (acc ++ [get_movie_details t env])
      simp only [List.length_append, List.length_cons, List.length_nil] at h
      simp only [List.length_cons]
      omega

/-- At most one record is resolved per candidate title. -/
theorem initialDetails_length (titles : List String) (env : Env) :
    (initialDetails titles env).length ≤ titles.length := by
  have h := initialDetails_le env titles []
  simpa [initialDetails] using h

/-- The Title Normalizer emits at most six candidates. -/
theorem movie_titles_le6 (content : String) : (movie_titles content).length ≤ 6 := by
  unfold movie_titles
  rw [List.length_map]
  exact List.length_take_le _ _

/-! ## Claim theorems -/

/-- C8: every successful GET /featured-movies response has at most 3
records, pairwise-distinct names, and each record genre-tagged with a
genre of the chosen diverse set, listed in the genre-set order (the
mapped genre fields form a sublist of the set). -/
theorem featured_structural_invariants (env : Env) :
    (get_featured_movies env).length ≤ 3 ∧
    ((get_featured_movies env).map nameOf).Nodup ∧
    ((get_featured_movies env).map (fun d => Dict.get d "genre")).Sublist
      ((chosenGenreSet env).map (fun g => some (Val.vstr g))) := by
  have hg : ∀ g ∈ chosenGenreSet env, ∀ d : Dict,
      get_top_movie_by_genre (genreIdOfName g) [] true env = Except.ok (some d) →
      Dict.get d "genre" = some (Val.vstr g) := by
    intro g hgmem d hd
    obtain ⟨_, _, g2, hg2, hget⟩ := picker_success _ _ _ _ _ hd
    have hrt := diverse_sets_genre_roundtrip _ (chosenGenreSet_mem env) g hgmem
    rw [hrt] at hg2
    rw [← Option.some.inj hg2] at hget
    exact hget
  refine ⟨?_, ?_, ?_⟩
  · show ((collectFeatured ((dispatchTasks env [] (chosenGenreSet env)).map Prod.snd)
        [] []).take 3).length ≤ 3
    exact List.length_take_le _ _
  · show (((collectFeatured ((dispatchTasks env [] (chosenGenreSet env)).map Prod.snd)
        [] []).take 3).map nameOf).Nodup
    rw [List.map_take]
    refine List.Nodup.sublist (List.take_sublist _ _) ?_
    exact collectFeatured_nodup _ [] [] (by simp) (by simp)
  · show (((collectFeatured ((dispatchTasks env [] (chosenGenreSet env)).map Prod.snd)
        [] []).take 3).map (fun d => Dict.get d "genre")).Sublist
      ((chosenGenreSet env).map (fun g => some (Val.vstr g)))
    rw [List.map_take]
    refine List.Sublist.trans (List.take_sublist _ _) ?_
    rw [dispatchTasks_snd env [] (chosenGenreSet env)]
    exact collectFeatured_genre_sub env (chosenGenreSet env) hg []

/-- C1 (counterexample): under a model response that repeats the title
Foo, the /recommend call succeeds with exactly six records whose names
are not pairwise distinct — the candidate resolutions are never
deduplicated, refuting the claimed duplicate-free guarantee. -/
theorem recommend_duplicate_names_cex :
    get_movie_recommendations "Inception" envDup 0 = Except.ok (some dupOut) ∧
    dupOut.length = 6 ∧
    ¬ (dupOut.map nameOf).Nodup := by
  refine ⟨by decide, by decide, by decide⟩

/-- C1 (amended): a /recommend call that completes returns exactly six
records; the records appended by the backfill loop each carry a name
distinct from every name before them, while the records resolved from
the candidate titles may repeat names. -/
theorem recommend_exact_six_and_backfill_fresh (seed content : String) (env : Env) (fuel : Nat)
    (out : List Dict)
    (hc : env.invoke (create_recommendation_prompt seed) = Except.ok content)
    (h : get_movie_recommendations seed env fuel = Except.ok (some out)) :
    out.length = 6 ∧
    ∃ rest, out = initialDetails (movie_titles content) env ++ rest ∧
      freshFrom (excludeNames (initialDetails (movie_titles content) env)) rest := by
  unfold get_movie_recommendations at h
  rw [hc] at h
  obtain ⟨⟨rest, hrest, hfresh⟩, h6, hge⟩ := backfill_ok seed env fuel 0 _ out h
  have hlen : (initialDetails (movie_titles content) env).length ≤ 6 :=
    le_trans (initialDetails_length _ env) (movie_titles_le6 content)
  constructor
  · by_cases hlt : (initialDetails (movie_titles content) env).length < 6
    · exact h6 hlt
    · have hout := hge (by omega)
      rw [hout]
      omega
  · exact ⟨rest, hrest, hfresh⟩

/-- C1 (witness): the amended statement at the concrete duplicate run. -/
theorem recommend_exact_six_and_backfill_fresh_w :
    dupOut.length = 6 ∧
    ∃ rest,
      dupOut = initialDetails (movie_titles "Foo\nFoo\nBar\nBaz\nQux\nQuux") envDup ++ rest ∧
      freshFrom
        (excludeNames (initialDetails (movie_titles "Foo\nFoo\nBar\nBaz\nQux\nQuux") envDup))
        rest :=
  recommend_exact_six_and_backfill_fresh "Inception" "Foo\nFoo\nBar\nBaz\nQux\nQuux" envDup 0
    dupOut rfl (by decide)

/-- C2: the Metadata Resolver is total by construction (it returns a
Dict, not an Except), every record it returns carries all six keys, and
a raised search call or detail call lands in the error placeholder
rather than escaping. -/
theorem resolver_total_never_raises (title : String) (env : Env) :
    Dict.keys (get_movie_details title env) =
      ["name", "score", "description", "description_en", "image", "imdb_id"] ∧
    (∀ e : Err, env.search (cleanedTitle title) = Except.error e →
      get_movie_details title env = errorRecord title env) ∧
    (∀ (movie : SearchMovie) (rest : List SearchMovie) (e : Err),
      env.search (cleanedTitle title) = Except.ok (movie :: rest) →
      env.detail movie.id = Except.error e →
      get_movie_details title env = errorRecord title env) := by
  refine ⟨resolver_keys title env, ?_, ?_⟩
  · intro e he
    unfold get_movie_details
    rw [he]
  · intro movie rest e hs hd
    unfold get_movie_details
    simp only [hs, hd]

/-- C3 (counterexample): a raised discovery call is not caught inside
the Genre Picker — the call raises to its caller, refuting the claim
that catalog failures are caught at the picker boundary. -/
theorem picker_propagates_catalog_failure_cex :
    get_top_movie_by_genre 28 [] true envFail = Except.error Err.httpErr := by decide

/-- C3 (amended): when the discovery call returns a parsed response and
the genre id has a name in the catalog, the Genre Picker returns a
record or None without raising; a catalog failure instead propagates as
an exception to the caller (tolerated by the featured endpoint's gather
and turned into a 500 by the /recommend handler). -/
theorem picker_returns_on_catalog_success (gid : Nat) (excl : List String) (um : Bool)
    (env : Env) (results : List SearchMovie)
    (hd : env.discover gid = Except.ok results)
    (hg : (genreNameOfId gid).isSome = true) :
    ∃ o, get_top_movie_by_genre gid excl um env = Except.ok o := by
  unfold get_top_movie_by_genre
  simp only [hd]
  cases results with
  | nil => exact ⟨none, rfl⟩
  | cons r rs =>
    cases hav : ((r :: rs).take 10).filter
        (fun m => decide (excl = [] ∨ m.title ∉ excl)) with
    | nil =>
      simp only [hav]
      exact ⟨none, rfl⟩
    | cons a arest =>
      simp only [hav]
      obtain ⟨g, hgeq⟩ := Option.isSome_iff_exists.mp hg
      simp only [hgeq]
      exact ⟨some (pickerRecord (chooseFrom env gid a arest) um g env), rfl⟩

/-- C3 (witness): the amended statement at a concrete empty catalog
response. -/
theorem picker_returns_on_catalog_success_w :
    ∃ o, get_top_movie_by_genre 28 [] true envEmpty = Except.ok o :=
  picker_returns_on_catalog_success 28 [] true envEmpty [] rfl (by decide)

/-- C4: starting a /recommend call whose model response yields fewer
than six resolved candidates against pickers that always answer None,
the backfill while-loop never finishes: no amount of fuel completes the
run, there being no iteration cap and no cap on genre-null responses. -/
theorem recommend_backfill_loop_unbounded (seed content : String) (env : Env)
    (hc : env.invoke (create_recommendation_prompt seed) = Except.ok content)
    (hnull : ∀ gid excl, get_top_movie_by_genre gid excl true env = Except.ok none)
    (hfew : (initialDetails (movie_titles content) env).length < 6) :
    ∀ fuel : Nat, get_movie_recommendations seed env fuel = Except.ok none := by
  intro fuel
  unfold get_movie_recommendations
  rw [hc]
  exact backfill_null_spins seed env hnull fuel 0 _ hfew

/-- C4 (witness): the loop is still spinning after 37 iterations of the
concrete all-null run. -/
theorem recommend_backfill_loop_unbounded_w :
    get_movie_recommendations "Inception" envEmpty 37 = Except.ok none :=
  recommend_backfill_loop_unbounded "Inception" "" envEmpty rfl (fun gid excl => rfl)
    (by decide) 37

/-- C5 (counterexample): a record built by the Genre Picker carries no
imdb_id key, refuting the claim that imdb_id is always present on
records built by the Resolver or the Picker. -/
theorem picker_record_missing_imdb_cex :
    get_top_movie_by_genre 28 [] true envPick = Except.ok (some (alphaRecord "Action")) ∧
    ¬ ("imdb_id" ∈ Dict.keys (alphaRecord "Action")) := by
  refine ⟨by decide, by decide⟩

/-- C5 (amended): every record keeps a fixed, fully-populated key set
decided by its constructor — Resolver records carry name, score,
description, description_en, image and imdb_id; Genre Picker records
carry name, score, description, description_en, image and genre (no
imdb_id key). -/
theorem record_keys_by_constructor (title : String) (gid : Nat) (excl : List String)
    (um : Bool) (envR envP : Env) (d : Dict)
    (h : get_top_movie_by_genre gid excl um envP = Except.ok (some d)) :
    Dict.keys (get_movie_details title envR) =
      ["name", "score", "description", "description_en", "image", "imdb_id"] ∧
    Dict.keys d = ["name", "score", "description", "description_en", "image", "genre"] :=
  ⟨resolver_keys title envR, (picker_success _ _ _ _ _ h).1⟩

/-- C5 (witness): the amended statement at the concrete picker run. -/
theorem record_keys_by_constructor_w :
    Dict.keys (get_movie_details "Alpha" envPick) =
      ["name", "score", "description", "description_en", "image", "imdb_id"] ∧
    Dict.keys (alphaRecord "Action") =
      ["name", "score", "description", "description_en", "image", "genre"] :=
  record_keys_by_constructor "Alpha" 28 [] true envPick envPick (alphaRecord "Action")
    (by decide)

/-- C6: the Title Normalizer maps the numbered list to its titles and
the bulleted parenthesised line to its bare title; no emitted candidate
starts (case-insensitively) with similar or recommended; the output
always has at most six candidates; and the output is a sublist of the
cleaned input lines, so input line order is preserved among survivors. -/
theorem normalizer_behavior :
    movie_titles "1. Foo\n2. Bar" = ["Foo", "Bar"] ∧
    movie_titles "- Inception (2010)" = ["Inception"] ∧
    (∀ content : String, (movie_titles content).length ≤ 6) ∧
    (∀ content : String, ∀ s ∈ movie_titles content,
      ¬ ("similar".data <+: s.data.map Char.toLower) ∧
      ¬ ("recommended".data <+: s.data.map Char.toLower)) ∧
    (∀ content : String,
      (movie_titles content).Sublist
        (((splitLines (pyStripList content.data)).map cleanLineL).map String.mk)) := by
  refine ⟨by decide, by decide, movie_titles_le6, ?_, ?_⟩
  · intro content s hs
    unfold movie_titles at hs
    obtain ⟨cs, hcs, hmk⟩ := List.mem_map.mp hs
    have hfil := List.mem_of_mem_take hcs
    have hkeep := (List.mem_filter.mp hfil).2
    unfold keepLineL at hkeep
    simp only [Bool.and_eq_true, Bool.not_eq_true', Bool.or_eq_false_iff] at hkeep
    obtain ⟨-, hsim, hrec⟩ := hkeep
    subst hmk
    have hdata : (String.mk cs).data = cs := rfl
    rw [hdata]
    constructor
    · intro hpre
      have hb := (startsWithList_iff (cs.map Char.toLower) "similar".data).mpr hpre
      rw [hsim] at hb
      exact Bool.false_ne_true hb
    · intro hpre
      have hb := (startsWithList_iff (cs.map Char.toLower) "recommended".data).mpr hpre
      rw [hrec] at hb
      exact Bool.false_ne_true hb
  · intro content
    unfold movie_titles
    refine List.Sublist.map String.mk ?_
    exact List.Sublist.trans (List.take_sublist _ _) (List.filter_sublist _)

/-- C7: a search with zero results makes the Resolver return the
no-result placeholder: the original unstripped title as name, score 0,
null image and imdb_id, the unlocalized placeholder text as
description_en and its translation as description. -/
theorem resolver_zero_results_placeholder (title : String) (env : Env)
    (h : env.search (cleanedTitle title) = Except.ok []) :
    get_movie_details title env = noResultRecord title env ∧
    Dict.get (get_movie_details title env) "name" = some (Val.vstr title) ∧
    Dict.get (get_movie_details title env) "score" = some (Val.vnum 0) ∧
    Dict.get (get_movie_details title env) "image" = some Val.vnull ∧
    Dict.get (get_movie_details title env) "imdb_id" = some Val.vnull ∧
    Dict.get (get_movie_details title env) "description_en" =
      some (Val.vstr "No information available") ∧
    Dict.get (get_movie_details title env) "description" =
      some (Val.vstr (translate_to_persian "No information available" env)) := by
  have h0 : get_movie_details title env = noResultRecord title env := by
    unfold get_movie_details
    rw [h]
  refine ⟨h0, ?_, ?_, ?_, ?_, ?_, ?_⟩ <;> rw [h0] <;> rfl

/-- C7 (witness): the placeholder fields at a concrete punctuated title
against an empty catalog. -/
theorem resolver_zero_results_placeholder_w :
    get_movie_details "Some Movie!" envEmpty = noResultRecord "Some Movie!" envEmpty ∧
    Dict.get (get_movie_details "Some Movie!" envEmpty) "name" =
      some (Val.vstr "Some Movie!") ∧
    Dict.get (get_movie_details "Some Movie!" envEmpty) "score" = some (Val.vnum 0) ∧
    Dict.get (get_movie_details "Some Movie!" envEmpty) "image" = some Val.vnull ∧
    Dict.get (get_movie_details "Some Movie!" envEmpty) "imdb_id" = some Val.vnull ∧
    Dict.get (get_movie_details "Some Movie!" envEmpty) "description_en" =
      some (Val.vstr "No information available") ∧
    Dict.get (get_movie_details "Some Movie!" envEmpty) "description" =
      some (Val.vstr (translate_to_persian "No information available" envEmpty)) :=
  resolver_zero_results_placeholder "Some Movie!" envEmpty rfl

/-- C9: a raised model call makes the Translator return the original
input text unchanged instead of propagating the exception. -/
theorem translator_identity_on_failure (text : String) (env : Env) (e : Err)
    (h : env.invoke (translationPrompt text) = Except.error e) :
    translate_to_persian text env = text := by
  unfold translate_to_persian
  rw [h]

/-- C9 (witness): the identity fallback at a concrete text against a
raising model. -/
theorem translator_identity_on_failure_w :
    translate_to_persian "A great movie about dreams." envFail = "A great movie about dreams." :=
  translator_identity_on_failure "A great movie about dreams." envFail Err.httpErr rfl

/-- C10: every featured-movies picker task is created with the empty
exclusion list (the used-movies state never changes during task
creation), so duplicate suppression happens only in the collection loop
after the gather: in a concrete run where all three parallel picks
return the same movie name, all three tasks succeed yet the response
keeps a single record. -/
theorem featured_dispatch_empty_exclusion_postfilter :
    (∀ (env : Env) (gs : List String),
      (dispatchTasks env [] gs).map Prod.fst = gs.map (fun _ => ([] : List String))) ∧
    (dispatchTasks envPick [] (chosenGenreSet envPick)).map Prod.snd =
      [Except.ok (some (alphaRecord "Action")),
       Except.ok (some (alphaRecord "Drama")),
       Except.ok (some (alphaRecord "Animation"))] ∧
    get_featured_movies envPick = [alphaRecord "Action"] := by
  refine ⟨fun env gs => dispatchTasks_fst env [] gs, by decide, by decide⟩

end Filmyfim
